import Mathlib

/-!
Shallow embedding of `pytree_checkpoint_handler.py` (orbax checkpoint):
the leaf classifier, the structure transform engine (`_get_restore_parameters`,
`_find_matching_input_args`, `_has_use_fallback_transform`), the aggregation
tree builder (`_get_tree_for_aggregation`), the batch grouper
(`_batched_serialization_requests`), and the save/restore orchestration of
`PyTreeCheckpointHandler` (`async_save`, `restore`, `structure`).

Trees appear throughout in their flattened form: an ordered association list
from key path (tuple of string segments) to leaf, which is exactly the shape
`_get_restore_parameters` works with after `utils.to_flat_dict`.  Python
`re.fullmatch` is modelled for patterns without regex metacharacters (the only
patterns exercised here), for which full match is string equality; likewise
`match.expand` on a template without backreferences is the template itself.
The `byte_limiter` handle stored on `ParamInfo` and the legacy `ts.Spec`
branch of `_get_param_info` are not modelled; collaborator interactions
(concurrency governor creation, aggregate store reads, type handler fetches)
are recorded in an explicit event list.
-/

namespace Orbax

/-- A key path: ordered sequence of string segments (source: `TupleKey`). -/
abbrev TupleKey := List String

/-- Slash-joined string form of a key path (source: `_keystr`). -/
def keystr (k : TupleKey) : String := String.intercalate "/" k

/-- Dot-joined parameter name (source: `_param_name_from_keypath`). -/
def paramName (k : TupleKey) : String := String.intercalate "." k

/-- A flattened tree: ordered mapping from key path to leaf
(the result of `utils.to_flat_dict`). -/
abbrev FlatDict (V : Type) := List (TupleKey × V)

/-- Dictionary lookup by key path. -/
def FlatDict.find {V : Type} (d : FlatDict V) (k : TupleKey) : Option V :=
  match d.find? (fun p => p.1 == k) with
  | some p => some p.2
  | none => none

/-- Python `key in dict`. -/
def FlatDict.containsKey {V : Type} (d : FlatDict V) (k : TupleKey) : Bool :=
  d.any (fun p => p.1 == k)

/-- Lookup by the slash-joined string form of the key. -/
def FlatDict.findByKeystr {V : Type} (d : FlatDict V) (s : String) : Option V :=
  match d.find? (fun p => keystr p.1 == s) with
  | some p => some p.2
  | none => none

/-- Per-leaf save directive (source: `type_handlers.SaveArgs`, fields as used
by `pytree_checkpoint_handler`). -/
structure SaveArgs where
  aggregate : Bool := false
  dtype : Option String := none
deriving DecidableEq, Repr

/-- Per-leaf restore directive (source: `type_handlers.RestoreArgs`, fields as
used by `pytree_checkpoint_handler`). -/
structure RestoreArgs where
  restore_type : Option String := none
  dtype : Option String := none
deriving DecidableEq, Repr

/-- Per-leaf derived metadata (source: `type_handlers.ParamInfo`, fields as
used by `pytree_checkpoint_handler`; the `byte_limiter` handle is omitted). -/
structure ParamInfo where
  name : Option String := none
  path : Option String := none
  skip_deserialize : Bool := false
  is_ocdbt_checkpoint : Bool := false
deriving DecidableEq, Repr

/-- A leaf of the restored checkpoint structure, as read back from the
aggregate artifact: a placeholder marker standing in for an individually
stored leaf (carrying the stored leaf name), an empty container, a
materialized value of a supported aggregation type (with its dtype tag), or
a value of an unsupported type. -/
inductive Leaf
  | placeholder (nm : String)
  | emptyNode
  | value (v : Int) (dtype : Option String := none)
  | unsupported (tyName : String)
deriving DecidableEq, Repr

/-- A leaf being saved, abstracted to the attributes inspected by the save
path: its runtime type name (for type handler lookup), whether it is a
`jax.Array` and fully replicated, whether it is a supported aggregation
type, and its dtype tag. -/
structure SaveValue where
  tyName : String
  isJaxArray : Bool := false
  isFullyReplicated : Bool := true
  isSupportedAggregation : Bool := true
  dtype : Option String := none
deriving DecidableEq, Repr

/-- Modelled from the spec: the Type Handler Registry collaborator
(`type_handlers` is not under `src/`), abstracted to the set of runtime type
names with a registered handler.  Source: `type_handlers.has_type_handler`. -/
def hasTypeHandler (registry : List String) (ty : String) : Bool :=
  registry.contains ty

/-- Modelled from the spec: `type_handlers.get_type_handler` (not under
`src/`) resolves a runtime type to its codec, raising for unregistered
types.  Handlers are identified by the type name they serve. -/
def getTypeHandlerFor (registry : List String) (ty : String) : Except String String :=
  if registry.contains ty then .ok ty
  else .error ("Unknown type: " ++ ty ++ ". Must register a handler.")

/-- Source: `_maybe_set_default_save_args`.  If explicit `SaveArgs` were
supplied they are kept; otherwise `aggregate` defaults to true iff no type
handler is registered for the leaf's runtime type. -/
def maybeSetDefaultSaveArgs (registry : List String) (value : SaveValue)
    (args : Option SaveArgs) : SaveArgs :=
  match args with
  | some a => a
  | none => { aggregate := !hasTypeHandler registry value.tyName }

/-- The defaulting pass at the top of `async_save`: per leaf of `item`, use
the caller's `SaveArgs` entry when it is one, else the default. -/
def defaultedSaveArgs (registry : List String) (item : FlatDict SaveValue)
    (save_args : Option (FlatDict (Option SaveArgs))) : FlatDict SaveArgs :=
  item.map (fun kv =>
    (kv.1, maybeSetDefaultSaveArgs registry kv.2
      (match save_args with
       | none => none
       | some sa => (FlatDict.find sa kv.1).bind id)))

/-- The `ParamInfo` built per leaf by `PyTreeCheckpointHandler._get_param_infos`:
name is the dot-joined key path, path is `directory / name`, and
`skip_deserialize` mirrors `args.aggregate`. -/
def paramInfoForSave (dir : String) (k : TupleKey) (a : SaveArgs) : ParamInfo :=
  { name := some (paramName k)
    path := some (dir ++ "/" ++ paramName k)
    skip_deserialize := a.aggregate }

/-- Source: `PyTreeCheckpointHandler._get_param_infos`.  Rejects an empty
item, then maps every leaf to its `ParamInfo` and reports whether all
parameters were aggregated. -/
def getParamInfos (dir : String) (item : FlatDict SaveValue)
    (save_args : FlatDict SaveArgs) :
    Except String (FlatDict ParamInfo × Bool) :=
  if item = [] then .error "Found empty item"
  else
    .ok (save_args.map (fun kv => (kv.1, paramInfoForSave dir kv.1 kv.2)),
         save_args.all (fun kv => kv.2.aggregate))

/-- Source: `_try_array_cast` on a value being saved: a requested dtype
retags the value, no dtype leaves it unchanged. -/
def tryArrayCastSave (v : SaveValue) (dtype : Option String) : SaveValue :=
  match dtype with
  | none => v
  | some d => { v with dtype := some d }

/-- A leaf of the tree written into the aggregate artifact: Python `None`
(for aggregated values of unsupported types), a materialized value, or a
placeholder marker carrying the parameter name. -/
inductive AggLeaf
  | noneValue
  | val (v : SaveValue)
  | placeholder (name : Option String)
deriving DecidableEq, Repr

/-- Source: `_get_leaf_for_aggregation` inside `_get_tree_for_aggregation`.
Aggregated leaves: a non-fully-replicated `jax.Array` raises; an unsupported
aggregation type becomes `None` silently; otherwise the (cast) value is kept.
Non-aggregated leaves become placeholder strings carrying the leaf name. -/
def getLeafForAggregation (param_info : ParamInfo) (arg : SaveArgs)
    (value : SaveValue) : Except String AggLeaf :=
  if arg.aggregate then
    if value.isJaxArray && !value.isFullyReplicated then
      .error "jax.Array must be fully replicated to be saved in aggregate file."
    else if !value.isSupportedAggregation then
      .ok AggLeaf.noneValue
    else
      .ok (AggLeaf.val (tryArrayCastSave value arg.dtype))
  else
    .ok (AggLeaf.placeholder param_info.name)

/-- One leaf of the lock-step walk over (key, value, args, info). -/
structure LeafEntry where
  key : TupleKey
  value : SaveValue
  args : SaveArgs
  info : ParamInfo
deriving DecidableEq, Repr

/-- Zips the three equally-structured trees walked by `jax.tree_util.tree_map`
into one list of per-leaf entries. -/
def zipLeaves (item : FlatDict SaveValue) (sargs : FlatDict SaveArgs)
    (infos : FlatDict ParamInfo) : List LeafEntry :=
  (item.zip (sargs.zip infos)).map
    (fun p => ⟨p.1.1, p.1.2, p.2.1.2, p.2.2.2⟩)

/-- Source: `_get_tree_for_aggregation`: per-leaf `_get_leaf_for_aggregation`
over the zipped trees, propagating the replication error. -/
def getTreeForAggregation (leaves : List LeafEntry) :
    Except String (FlatDict AggLeaf) :=
  leaves.mapM (fun e =>
    (getLeafForAggregation e.info e.args e.value).map (fun l => (e.key, l)))

/-- One batched serialization request (source: `_BatchRequest`): a codec plus
the ordered names of the leaves it serves. -/
structure BatchRequest where
  handler : String
  names : List String
deriving DecidableEq, Repr

/-- Appends a leaf name to the request of its handler, keeping the insertion
order of handlers (Python dict `grouped`). -/
def groupAdd : List BatchRequest → String → String → List BatchRequest
  | [], h, n => [⟨h, [n]⟩]
  | r :: rest, h, n =>
    if r.handler = h then ⟨r.handler, r.names ++ [n]⟩ :: rest
    else r :: groupAdd rest h n

/-- Worker for `batchedSaveRequests`: skips aggregated leaves, resolves the
codec from the runtime type and groups by codec. -/
def batchedSaveRequestsGo (registry : List String) (acc : List BatchRequest) :
    List LeafEntry → Except String (List BatchRequest)
  | [] => .ok acc
  | e :: rest =>
    if e.info.skip_deserialize then batchedSaveRequestsGo registry acc rest
    else
      match getTypeHandlerFor registry e.value.tyName with
      | .error msg => .error msg
      | .ok h =>
        batchedSaveRequestsGo registry (groupAdd acc h (e.info.name.getD "")) rest

/-- Source: `_batched_serialization_requests` during save: partitions the
non-skipped leaves into per-codec batches. -/
def batchedSaveRequests (registry : List String) (leaves : List LeafEntry) :
    Except String (List BatchRequest) :=
  batchedSaveRequestsGo registry [] leaves

/-- Externally visible effects of a save call, in order. -/
inductive SaveEvent
  | mkdir (path : String)
  | barrier (name : String)
  | serializeBatch (handler : String) (names : List String)
  | aggregateWrite (path : String)
deriving DecidableEq, Repr

/-- Outcome of `async_save`: the result and the ordered effects that were
issued before it was produced. -/
structure SaveResult where
  result : Except String Unit
  events : List SaveEvent
deriving Repr

/-- Source: `PyTreeCheckpointHandler.async_save`.  Defaults the save args,
classifies leaves, creates per-parameter directories followed by a barrier
(skipped when using OCDBT or when everything is aggregated), dispatches the
per-codec batches (skipped when everything is aggregated), and writes the
aggregate artifact. -/
def asyncSave (registry : List String) (use_ocdbt : Bool) (dir : String)
    (aggregate_filename : String) (item : FlatDict SaveValue)
    (save_args : Option (FlatDict (Option SaveArgs))) : SaveResult :=
  let sargs := defaultedSaveArgs registry item save_args
  match getParamInfos dir item sargs with
  | .error e => ⟨.error e, []⟩
  | .ok (infos, all_agg) =>
    let leaves := zipLeaves item sargs infos
    let dirEvents :=
      if !use_ocdbt && !all_agg then
        (leaves.filterMap (fun e =>
          if e.args.aggregate then none
          else e.info.path.map SaveEvent.mkdir))
        ++ [SaveEvent.barrier "PyTreeCheckpointHandler:create_param_save_dirs"]
      else []
    if all_agg then
      match getTreeForAggregation leaves with
      | .error e => ⟨.error e, dirEvents⟩
      | .ok _ =>
        ⟨.ok (), dirEvents ++ [SaveEvent.aggregateWrite (dir ++ "/" ++ aggregate_filename)]⟩
    else
      match batchedSaveRequests registry leaves with
      | .error e => ⟨.error e, dirEvents⟩
      | .ok reqs =>
        let batchEvents := reqs.map (fun r => SaveEvent.serializeBatch r.handler r.names)
        match getTreeForAggregation leaves with
        | .error e => ⟨.error e, dirEvents ++ batchEvents⟩
        | .ok _ =>
          ⟨.ok (), dirEvents ++ batchEvents
            ++ [SaveEvent.aggregateWrite (dir ++ "/" ++ aggregate_filename)]⟩

/-- Python `re.fullmatch` restricted to patterns that contain no regex
metacharacters, for which a full match is exactly string equality.  Every
pattern appearing in this development is of that literal form. -/
def reFullmatch (pattern s : String) : Bool := pattern == s

/-- Python `match.expand(template)` for a template without backreferences:
the template itself (a literal pattern captures no groups). -/
def matchExpand (template : String) : String := template

/-- A reconciliation rule.  Modelled from the spec: `transform_utils.Transform`
and its subclass `RestoreTransform` are not under `src/`; the fields are the
ones read by `pytree_checkpoint_handler` and described by the spec's Transform
data model (rename / multi-merge / use-fallback, exactly one mode active).
`is_restore` records whether the rule is a `RestoreTransform` instance. -/
structure Transform where
  original_key : Option String := none
  use_fallback : Bool := false
  multi_value_fn : Option (String → FlatDict Leaf → Leaf) := none
  multi_value_fn_input_args : Option (List (String × RestoreArgs)) := none
  is_restore : Bool := false

/-- The inner loop of `_find_matching_input_args` over
`transform.multi_value_fn_input_args`: first entry whose regex fully matches
the input key's string form wins. -/
def findMultiValueArgs (input_key : TupleKey) :
    List (String × RestoreArgs) → Option RestoreArgs
  | [] => none
  | (rx, args) :: rest =>
    if reFullmatch rx (keystr input_key) then some args
    else findMultiValueArgs input_key rest

/-- The inner loop of `_find_matching_input_args` over `flat_item` for a
rename rule: for each output key fully matched by the rule's target pattern,
reverse-engineer the original key (the expanded `original_key` pattern, or
the output key itself when the rule has none) and, when it equals the input
key, return the `RestoreArgs` recorded at the output key. -/
def findRenameMatch (transform_key : TupleKey) (transform : Transform)
    (input_key : TupleKey) (flat_restore_args : FlatDict RestoreArgs) :
    FlatDict Leaf → Except String (Option RestoreArgs)
  | [] => .ok none
  | (output_key, _) :: rest =>
    if reFullmatch (keystr transform_key) (keystr output_key) then
      let input_key_pattern :=
        match transform.original_key with
        | none => keystr output_key
        | some pat => matchExpand pat
      if input_key_pattern == keystr input_key then
        match flat_restore_args.find output_key with
        | some ra => .ok (some ra)
        | none => .error ("KeyError: " ++ keystr output_key)
      else findRenameMatch transform_key transform input_key flat_restore_args rest
    else findRenameMatch transform_key transform input_key flat_restore_args rest

/-- The outer loop of `_find_matching_input_args` over the flattened
transforms: a multi-value rule must be a `RestoreTransform` and must carry
`multi_value_fn_input_args`; non-fallback rules are treated as renames. -/
def findMatchingInputArgsGo (input_key : TupleKey) (flat_item : FlatDict Leaf)
    (flat_restore_args : FlatDict RestoreArgs) :
    FlatDict Transform → Except String (Option RestoreArgs)
  | [] => .ok none
  | (transform_key, transform) :: rest =>
    match transform.multi_value_fn with
    | some _ =>
      if !transform.is_restore then
        .error "Must use RestoreTransform in order to use multi_value_fn during restore."
      else
        match transform.multi_value_fn_input_args with
        | none =>
          .error "`multi_value_fn` was specified, but `multi_value_fn_input_args` were not. The latter must be specified to identify inputs for the function."
        | some inputArgs =>
          match findMultiValueArgs input_key inputArgs with
          | some args => .ok (some args)
          | none => findMatchingInputArgsGo input_key flat_item flat_restore_args rest
    | none =>
      if !transform.use_fallback then
        match findRenameMatch transform_key transform input_key flat_restore_args flat_item with
        | .error e => .error e
        | .ok (some ra) => .ok (some ra)
        | .ok none => findMatchingInputArgsGo input_key flat_item flat_restore_args rest
      else findMatchingInputArgsGo input_key flat_item flat_restore_args rest

/-- Source: `_find_matching_input_args`. -/
def findMatchingInputArgs (input_key : TupleKey) (flat_item : FlatDict Leaf)
    (flat_transforms : FlatDict Transform)
    (flat_restore_args : FlatDict RestoreArgs) :
    Except String (Option RestoreArgs) :=
  findMatchingInputArgsGo input_key flat_item flat_restore_args flat_transforms

/-- Source: `_has_use_fallback_transform`: some rule's target pattern fully
matches the input key and has `use_fallback` set. -/
def hasUseFallbackTransform (input_key : TupleKey)
    (flat_transforms : FlatDict Transform) : Bool :=
  flat_transforms.any
    (fun p => reFullmatch (keystr p.1) (keystr input_key) && p.2.use_fallback)

/-- Either a `ParamInfo` or a raw empty-container leaf: `_get_param_info`
returns the leaf itself for supported empty aggregation types. -/
inductive InfoOrLeaf
  | info (i : ParamInfo)
  | leaf (l : Leaf)
deriving DecidableEq, Repr

/-- Source: the nested `_get_param_info` of `_get_restore_parameters`.  A
placeholder leaf denotes an individually stored parameter at
`directory / placeholder-name`; an empty container is returned as-is; an
already materialized supported value needs no fetch (`path = None`, hence
`skip_deserialize`); anything else is a classification error.  (The legacy
`ts.Spec` branch is not modelled.) -/
def getParamInfoRestore (directory : String) (is_ocdbt : Bool)
    (nested_name : TupleKey) (leaf : Leaf) : Except String InfoOrLeaf :=
  match leaf with
  | .placeholder nm =>
    .ok (.info { name := some (paramName nested_name)
                 path := some (directory ++ "/" ++ nm)
                 skip_deserialize := false
                 is_ocdbt_checkpoint := is_ocdbt })
  | .emptyNode => .ok (.leaf .emptyNode)
  | .value _ _ =>
    .ok (.info { name := some (paramName nested_name)
                 path := none
                 skip_deserialize := true
                 is_ocdbt_checkpoint := is_ocdbt })
  | .unsupported ty => .error ("Unsupported type: " ++ ty)

/-- One iteration of the transforms branch of `_get_restore_parameters` for a
single key of the saved structure, giving its `ParamInfo` and the
`RestoreArgs` to fetch it with. -/
def restoreParamsFor (directory : String) (is_ocdbt : Bool)
    (flat_item : FlatDict Leaf) (flat_transforms : FlatDict Transform)
    (flat_restore_args : FlatDict RestoreArgs)
    (transforms_default_to_original : Bool)
    (input_key : TupleKey) (value : Leaf) :
    Except String (InfoOrLeaf × RestoreArgs) :=
  match findMatchingInputArgs input_key flat_item flat_transforms flat_restore_args with
  | .error e => .error e
  | .ok (some args) =>
    match getParamInfoRestore directory is_ocdbt input_key value with
    | .error e => .error e
    | .ok info => .ok (info, args)
  | .ok none =>
    if flat_item.containsKey input_key then
      if hasUseFallbackTransform input_key flat_transforms then
        if transforms_default_to_original then
          .ok (.info { skip_deserialize := true }, {})
        else
          match getParamInfoRestore directory is_ocdbt input_key value with
          | .error e => .error e
          | .ok info =>
            match flat_restore_args.find input_key with
            | some ra => .ok (info, ra)
            | none => .error ("KeyError: " ++ keystr input_key)
      else
        if transforms_default_to_original then
          match getParamInfoRestore directory is_ocdbt input_key value with
          | .error e => .error e
          | .ok info =>
            match flat_restore_args.find input_key with
            | some ra => .ok (info, ra)
            | none => .error ("KeyError: " ++ keystr input_key)
        else
          .ok (.info { skip_deserialize := true }, {})
    else
      .ok (.info { skip_deserialize := true }, {})

/-- Source: `_get_restore_parameters`.  Without transforms, every key of the
saved structure gets a `ParamInfo` from how it was recorded, and the restore
args pass through (defaulted over the structure when absent).  With
transforms, `item` is mandatory and each saved key is resolved through
multi-merge / rename matching, the fallback rules, or dropped. -/
def getRestoreParameters (directory : String) (is_ocdbt : Bool)
    (item : Option (FlatDict Leaf)) (structure_ : FlatDict Leaf)
    (transforms : Option (FlatDict Transform))
    (restore_args : Option (FlatDict RestoreArgs))
    (transforms_default_to_original : Bool) :
    Except String (FlatDict InfoOrLeaf × FlatDict RestoreArgs) :=
  let flat_restore_args :=
    match restore_args with
    | none => structure_.map (fun kv => (kv.1, ({} : RestoreArgs)))
    | some ra => ra
  match transforms with
  | none =>
    match structure_.mapM (fun kv =>
        (getParamInfoRestore directory is_ocdbt kv.1 kv.2).map (fun i => (kv.1, i))) with
    | .error e => .error e
    | .ok infos => .ok (infos, flat_restore_args)
  | some flat_transforms =>
    match item with
    | none =>
      .error "If providing `transforms`, must provide `item` matching structure of expected result."
    | some flat_item =>
      match structure_.mapM (fun kv =>
          (restoreParamsFor directory is_ocdbt flat_item flat_transforms
              flat_restore_args transforms_default_to_original kv.1 kv.2).map
            (fun r => (kv.1, r))) with
      | .error e => .error e
      | .ok pairs =>
        .ok (pairs.map (fun p => (p.1, p.2.1)), pairs.map (fun p => (p.1, p.2.2)))

/-- Source: `_try_array_cast` on a restored leaf: a requested dtype retags a
materialized value; placeholders and other leaves pass through unchanged. -/
def tryArrayCastLeaf (l : Leaf) (dtype : Option String) : Leaf :=
  match dtype with
  | none => l
  | some d =>
    match l with
    | .value v _ => .value v (some d)
    | other => other

/-- The parameter names fetched through type handlers: leaves whose
`ParamInfo` does not have `skip_deserialize` set (exactly those entering
`_batched_serialization_requests` during restore). -/
def fetchedNames (infos : FlatDict InfoOrLeaf) : List String :=
  infos.filterMap (fun kv =>
    match kv.2 with
    | .info i => if i.skip_deserialize then none else some (i.name.getD "")
    | .leaf _ => none)

/-- Source: `PyTreeCheckpointHandler._maybe_deserialize`.  Skipped leaves are
resolved from the aggregate structure (after the dtype cast of
`_process_aggregated_value`); the rest are replaced by the type handler's
output for their parameter name.  `fetch` is the storage oracle standing for
the batched `TypeHandler.deserialize` calls. -/
def maybeDeserialize (structure_ : FlatDict Leaf)
    (param_infos : FlatDict InfoOrLeaf) (restore_args : FlatDict RestoreArgs)
    (fetch : String → Leaf) : FlatDict Leaf :=
  structure_.map (fun kv =>
    match param_infos.find kv.1 with
    | some (.info i) =>
      if i.skip_deserialize then
        (kv.1, tryArrayCastLeaf kv.2 ((restore_args.find kv.1).getD {}).dtype)
      else (kv.1, fetch (i.name.getD ""))
    | _ => kv)

/-- Applies one matched rule to an output key: a use-fallback rule keeps the
caller's value, a multi-merge rule invokes its merge function on the restored
tree, a rename rule pulls the restored value at the (expanded) original key
(the output key itself when no original-key pattern is given). -/
def applyTransformRule (original : FlatDict Leaf) (k : TupleKey) (v : Leaf)
    (t : Transform) : Except String Leaf :=
  if t.use_fallback then .ok v
  else
    match t.multi_value_fn with
    | some f => .ok (f (keystr k) original)
    | none =>
      let okey :=
        match t.original_key with
        | none => keystr k
        | some pat => matchExpand pat
      match original.findByKeystr okey with
      | some ov => .ok ov
      | none => .error ("KeyError: " ++ okey)

/-- Modelled from the spec: `transform_utils.apply_transformations` is not
under `src/`.  Per spec section 4.3, the post-restore step maps the fetched
flat values from the saved shape into the target shape by invoking each
rule's merge/rename/fallback action at every target key its pattern fully
matches; target keys without a matching rule carry the original (restored)
value verbatim when `transforms_default_to_original` is true, else keep the
caller's own value. -/
def applyTransformations (original : FlatDict Leaf)
    (transforms : FlatDict Transform) (item : FlatDict Leaf)
    (transforms_default_to_original : Bool) : Except String (FlatDict Leaf) :=
  item.mapM (fun kv =>
    match transforms.find? (fun tp => reFullmatch (keystr tp.1) (keystr kv.1)) with
    | some tp =>
      (applyTransformRule original kv.1 kv.2 tp.2).map (fun l => (kv.1, l))
    | none =>
      if transforms_default_to_original then
        match original.find kv.1 with
        | some ov => .ok (kv.1, ov)
        | none => .ok kv
      else .ok kv)

/-- Modelled from the spec: `utils.deserialize_tree` is not under `src/`.
Per spec section 4.1/4.5, it restructures the restored values into the target
item's shape, pulling the value at each of the target's key paths (missing
key paths are an error, Python's `KeyError`). -/
def deserializeTree (restored : FlatDict Leaf) (item : FlatDict Leaf) :
    Except String (FlatDict Leaf) :=
  item.mapM (fun kv =>
    match restored.find kv.1 with
    | some rv => .ok (kv.1, rv)
    | none => .error ("KeyError: " ++ keystr kv.1))

/-- Source: `_transform_structure`.  No item: transforms are illegal and the
restored tree passes through.  Item without transforms: reshape into the item
via `deserialize_tree`.  Item with transforms: `restore_args` is mandatory
and the transformations are applied. -/
def transformStructure (item : Option (FlatDict Leaf)) (restored : FlatDict Leaf)
    (restore_args : Option (FlatDict RestoreArgs))
    (transforms : Option (FlatDict Transform))
    (transforms_default_to_original : Bool) : Except String (FlatDict Leaf) :=
  match item with
  | none =>
    match transforms with
    | some _ =>
      .error "If providing `transforms`, must provide `item` matching structure of expected result."
    | none => .ok restored
  | some it =>
    match transforms with
    | none => deserializeTree restored it
    | some ts =>
      match restore_args with
      | none =>
        .error "If providing `transforms`, must provide `restore_args` matching structure of expected result."
      | some _ => applyTransformations restored ts it transforms_default_to_original

/-- Source: `PyTreeCheckpointHandler.structure`.  If the aggregate artifact
exists its deserialized tree is returned (placeholders left uninterpreted);
otherwise, with OCDBT the call raises, and without OCDBT the structure is
inferred from the on-disk individually-stored leaf names
(`utils.pytree_structure`, represented by the `inferred` oracle). -/
def structureFn (aggExists : Bool) (use_ocdbt : Bool)
    (aggContents : FlatDict Leaf) (inferred : FlatDict Leaf) (dir : String) :
    Except String (FlatDict Leaf) :=
  if aggExists then .ok aggContents
  else if use_ocdbt then
    .error ("Checkpoint structure file does not exist at " ++ dir ++ ".")
  else .ok inferred

/-- The state of the checkpoint directory and storage, as seen by a restore
call: directory existence, aggregate artifact existence and contents, the
structure inferable from on-disk leaf names, the OCDBT marker, and the
storage oracle answering type handler fetches by parameter name. -/
structure Filesystem where
  dirExists : Bool
  aggExists : Bool
  aggContents : FlatDict Leaf
  inferredStructure : FlatDict Leaf
  isOcdbtCheckpoint : Bool := false
  fetch : String → Leaf

/-- The external collaborators a restore call may touch. -/
inductive Collaborator
  | governor
  | aggregateStore
  | typeHandler
deriving DecidableEq, Repr

/-- Outcome of a restore call: the result, the collaborators touched in
order, and the parameter names fetched through type handlers. -/
structure RestoreResult where
  result : Except String (FlatDict Leaf)
  touched : List Collaborator
  fetched : List String

/-- Source: `PyTreeCheckpointHandler.restore`.  Fails fast when the directory
does not exist; then creates the byte limiter (the concurrency governor),
reads the saved structure, resolves per-leaf parameters, deserializes, and
reassembles into the target shape.  (`transform_fn` is not modelled; it is
`None` throughout.) -/
def restore (fs : Filesystem) (use_ocdbt : Bool) (dir : String)
    (item : Option (FlatDict Leaf)) (restore_args : Option (FlatDict RestoreArgs))
    (transforms : Option (FlatDict Transform))
    (transforms_default_to_original : Bool) : RestoreResult :=
  if !fs.dirExists then
    ⟨.error ("Requested directory for restore does not exist at " ++ dir), [], []⟩
  else
    let touchedStructure :=
      if fs.aggExists then [Collaborator.governor, Collaborator.aggregateStore]
      else [Collaborator.governor]
    match structureFn fs.aggExists use_ocdbt fs.aggContents fs.inferredStructure dir with
    | .error e => ⟨.error e, touchedStructure, []⟩
    | .ok structure_ =>
      match getRestoreParameters dir fs.isOcdbtCheckpoint item structure_
          transforms restore_args transforms_default_to_original with
      | .error e => ⟨.error e, touchedStructure, []⟩
      | .ok (param_infos, checkpoint_restore_args) =>
        let fetched := fetchedNames param_infos
        let restored :=
          maybeDeserialize structure_ param_infos checkpoint_restore_args fs.fetch
        let touched :=
          touchedStructure ++ (if fetched = [] then [] else [Collaborator.typeHandler])
        match transformStructure item restored restore_args transforms
            transforms_default_to_original with
        | .error e => ⟨.error e, touched, fetched⟩
        | .ok out => ⟨.ok out, touched, fetched⟩

/-! Concrete checkpoints and rules used by the claim theorems. -/

/-- A checkpoint holding `{a: 1, c: 3}` with both leaves stored individually
(the aggregate artifact records placeholders). -/
def twoLeafCkpt : Filesystem :=
  { dirExists := true
    aggExists := true
    aggContents := [(["a"], .placeholder "a"), (["c"], .placeholder "c")]
    inferredStructure := []
    fetch := fun n => if n == "a" then .value 1 else if n == "c" then .value 3 else .unsupported "x" }

/-- A checkpoint holding `{a: 1}` with the leaf stored individually. -/
def oneLeafCkpt : Filesystem :=
  { dirExists := true
    aggExists := true
    aggContents := [(["a"], .placeholder "a")]
    inferredStructure := []
    fetch := fun n => if n == "a" then .value 1 else .unsupported "x" }

/-- A `use_fallback` rule. -/
def fallbackRule : Transform := { use_fallback := true }

/-- A rename rule: target key `b` comes from original key `a`. -/
def renameRule : Transform := { original_key := some "a" }

/-- A multi-merge (`multi_value_fn`) rule whose input-args map is present but
empty. -/
def emptyArgsMerge : Transform :=
  { multi_value_fn := some (fun _ _ => Leaf.value 0 none)
    multi_value_fn_input_args := some []
    is_restore := true }

/-- `RestoreArgs` requesting an explicit restore type, used to observe which
args a leaf is fetched with. -/
def raNp : RestoreArgs := { restore_type := some "np" }

/-- If a rename rule has no original-key pattern and its scan over the target
item returns `RestoreArgs`, then some target key's string form equals the
saved (input) key's string form. -/
theorem findRenameMatch_none_mem (tk : TupleKey) (t : Transform) (ik : TupleKey)
    (fra : FlatDict RestoreArgs) (ra : RestoreArgs)
    (hnone : t.original_key = none) :
    ∀ (items : FlatDict Leaf),
      findRenameMatch tk t ik fra items = .ok (some ra) →
      ∃ o, o ∈ items.map Prod.fst ∧ keystr o = keystr ik := by
  intro items
  induction items with
  | nil =>
    intro h
    simp [findRenameMatch] at h
  | cons hd tl ih =>
    intro h
    obtain ⟨okey, lv⟩ := hd
    simp only [findRenameMatch, hnone] at h
    by_cases hm : reFullmatch (keystr tk) (keystr okey) = true
    · rw [if_pos hm] at h
      by_cases he : (keystr okey == keystr ik) = true
      · refine ⟨okey, ?_, eq_of_beq he⟩
        rw [List.map_cons]
        exact List.mem_cons_self _ _
      · rw [if_neg he] at h
        obtain ⟨o, ho, hk⟩ := ih h
        exact ⟨o, by rw [List.map_cons]; exact List.mem_cons.mpr (Or.inr ho), hk⟩
    · rw [if_neg hm] at h
      obtain ⟨o, ho, hk⟩ := ih h
      exact ⟨o, by rw [List.map_cons]; exact List.mem_cons.mpr (Or.inr ho), hk⟩

/-- Counterexample to claim C1 as stated: for an aggregated leaf, the
save-side `ParamInfo` still has `path = directory/name`, never null. -/
theorem c1_counterexample :
    getParamInfos "d" [(["a"], { tyName := "int" })] [(["a"], { aggregate := true })] =
      .ok ([(["a"], { name := some "a", path := some "d/a", skip_deserialize := true })], true)
    ∧ (paramInfoForSave "d" ["a"] { aggregate := true }).path ≠ none :=
  ⟨rfl, by decide⟩

/-- Claim C1 (amended): for every leaf, the save-side leaf classifier builds
a `ParamInfo` with `skip_deserialize = save_args.aggregate` and with
`path = directory/name` whether or not the leaf is aggregated. -/
theorem c1_param_infos (dir : String) (item : FlatDict SaveValue)
    (sargs : FlatDict SaveArgs) (k : TupleKey) (a : SaveArgs)
    (hne : item ≠ []) (hmem : (k, a) ∈ sargs) :
    ∃ infos all_agg, getParamInfos dir item sargs = .ok (infos, all_agg) ∧
      (k, paramInfoForSave dir k a) ∈ infos ∧
      (paramInfoForSave dir k a).skip_deserialize = a.aggregate ∧
      (paramInfoForSave dir k a).path = some (dir ++ "/" ++ paramName k) := by
  have h : getParamInfos dir item sargs =
      .ok (sargs.map (fun kv => (kv.1, paramInfoForSave dir kv.1 kv.2)),
           sargs.all (fun kv => kv.2.aggregate)) := by
    rw [getParamInfos, if_neg hne]
  exact ⟨_, _, h, List.mem_map.mpr ⟨(k, a), hmem, rfl⟩, rfl, rfl⟩

/-- Witness for the amended C1 at a concrete aggregated leaf. -/
theorem c1_param_infos_witness :
    ∃ infos all_agg,
      getParamInfos "d" [(["a"], { tyName := "int" })] [(["a"], { aggregate := true })] =
        .ok (infos, all_agg) ∧
      (["a"], paramInfoForSave "d" ["a"] { aggregate := true }) ∈ infos ∧
      (paramInfoForSave "d" ["a"] { aggregate := true }).skip_deserialize =
        SaveArgs.aggregate { aggregate := true } ∧
      (paramInfoForSave "d" ["a"] { aggregate := true }).path =
        some ("d" ++ "/" ++ paramName ["a"]) :=
  c1_param_infos "d" [(["a"], { tyName := "int" })] [(["a"], { aggregate := true })]
    ["a"] { aggregate := true } (by decide) (by decide)

/-- Counterexample to claim C2 as stated: with transforms omitted, restoring
`{a: 1, c: 3}` (both leaves individually stored) against target `{a: ?}`
does return `{a: 1}` with `c` absent, but the saved leaf `c` IS fetched from
storage. -/
theorem c2_counterexample :
    restore twoLeafCkpt false "d" (some [(["a"], Leaf.value 0 none)]) none none true =
      ⟨.ok [(["a"], Leaf.value 1 none)],
       [Collaborator.governor, Collaborator.aggregateStore, Collaborator.typeHandler],
       ["a", "c"]⟩
    ∧ "c" ∈ (restore twoLeafCkpt false "d" (some [(["a"], Leaf.value 0 none)])
        none none true).fetched :=
  ⟨rfl, by decide⟩

/-- Claim C2 (amended): restoring saved `{a: 1, c: 3}` with target shape
`{a: ?}` and an EMPTY transform rule set (with restore args supplied) and
`transforms_default_to_original = true` returns `{a: 1}`, with key `c`
absent from the result and the saved leaf `c` never fetched from storage;
with transforms omitted entirely the result is the same but `c` is fetched. -/
theorem c2_drop :
    restore twoLeafCkpt false "d" (some [(["a"], Leaf.value 0 none)])
        (some [(["a"], ({} : RestoreArgs))]) (some []) true =
      ⟨.ok [(["a"], Leaf.value 1 none)],
       [Collaborator.governor, Collaborator.aggregateStore, Collaborator.typeHandler],
       ["a"]⟩
    ∧ "c" ∉ (restore twoLeafCkpt false "d" (some [(["a"], Leaf.value 0 none)])
        (some [(["a"], ({} : RestoreArgs))]) (some []) true).fetched
    ∧ FlatDict.find [(["a"], Leaf.value 1 none)] ["c"] = (none : Option Leaf) :=
  ⟨rfl, by decide, rfl⟩

/-- Counterexample to claim C3 as stated: in the fallback scenario with
`transforms_default_to_original = false`, the checkpoint leaf IS fetched
from storage (the type handler is touched), even though the result still
takes the target's value. -/
theorem c3_counterexample :
    (restore oneLeafCkpt false "d" (some [(["a"], Leaf.value 2 none)])
        (some [(["a"], raNp)]) (some [(["a"], fallbackRule)]) false).fetched = ["a"]
    ∧ Collaborator.typeHandler ∈ (restore oneLeafCkpt false "d"
        (some [(["a"], Leaf.value 2 none)]) (some [(["a"], raNp)])
        (some [(["a"], fallbackRule)]) false).touched :=
  ⟨rfl, by decide⟩

/-- Claim C3 (amended): restoring saved `{a: 1}` with target `{a: 2}` and a
`use_fallback` rule on `a` returns `{a: 2}` when
`transforms_default_to_original = true`, without fetching the checkpoint
leaf; with `transforms_default_to_original = false` the result is still
`{a: 2}` taken from the target, but the checkpoint leaf is fetched (using
the target's `RestoreArgs` at that key) and then discarded. -/
theorem c3_fallback :
    restore oneLeafCkpt false "d" (some [(["a"], Leaf.value 2 none)])
        (some [(["a"], raNp)]) (some [(["a"], fallbackRule)]) true =
      ⟨.ok [(["a"], Leaf.value 2 none)],
       [Collaborator.governor, Collaborator.aggregateStore], []⟩
    ∧ restore oneLeafCkpt false "d" (some [(["a"], Leaf.value 2 none)])
        (some [(["a"], raNp)]) (some [(["a"], fallbackRule)]) false =
      ⟨.ok [(["a"], Leaf.value 2 none)],
       [Collaborator.governor, Collaborator.aggregateStore, Collaborator.typeHandler],
       ["a"]⟩
    ∧ getRestoreParameters "d" false (some [(["a"], Leaf.value 2 none)])
        [(["a"], Leaf.placeholder "a")] (some [(["a"], fallbackRule)])
        (some [(["a"], raNp)]) false =
      .ok ([(["a"], .info { name := some "a", path := some "d/a",
                            skip_deserialize := false })], [(["a"], raNp)]) :=
  ⟨rfl, rfl, rfl⟩

/-- Counterexample to claim C4 as stated: a multi-merge rule whose input-args
map is PRESENT BUT EMPTY is not rejected — parameter resolution succeeds
with no error and the saved leaf is fetched through the default branch. -/
theorem c4_counterexample :
    getRestoreParameters "d" false (some [(["a"], Leaf.value 0 none)])
        [(["a"], Leaf.placeholder "a")] (some [(["z"], emptyArgsMerge)])
        (some [(["a"], ({} : RestoreArgs))]) true =
      .ok ([(["a"], .info { name := some "a", path := some "d/a",
                            skip_deserialize := false })],
           [(["a"], ({} : RestoreArgs))])
    ∧ restore oneLeafCkpt false "d" (some [(["a"], Leaf.value 0 none)])
        (some [(["a"], ({} : RestoreArgs))]) (some [(["z"], emptyArgsMerge)]) true =
      ⟨.ok [(["a"], Leaf.value 1 none)],
       [Collaborator.governor, Collaborator.aggregateStore, Collaborator.typeHandler],
       ["a"]⟩ :=
  ⟨rfl, rfl⟩

/-- Claim C4 (amended): a multi-merge rule whose input-args map is MISSING
(`None`) is rejected with a configuration error when the matcher reaches it
— in particular whenever it heads the rule list and the saved structure is
nonempty — before any leaf is fetched (no type handler touched, nothing
fetched); an empty-but-present map is accepted and simply matches no
inputs. -/
theorem c4_missing_input_args (k0 : TupleKey) (v0 : Leaf) (rest inf : FlatDict Leaf)
    (oc : Bool) (fetch : String → Leaf) (uo : Bool) (dir : String)
    (item : FlatDict Leaf) (ra : Option (FlatDict RestoreArgs)) (tdo : Bool)
    (tk : TupleKey) (okey : Option String) (fb : Bool)
    (f : String → FlatDict Leaf → Leaf) (ts : FlatDict Transform) :
    restore ⟨true, true, (k0, v0) :: rest, inf, oc, fetch⟩ uo dir (some item) ra
        (some ((tk, ⟨okey, fb, some f, none, true⟩) :: ts)) tdo =
      ⟨.error "`multi_value_fn` was specified, but `multi_value_fn_input_args` were not. The latter must be specified to identify inputs for the function.",
       [Collaborator.governor, Collaborator.aggregateStore], []⟩ :=
  rfl

/-- Claim C5: restoring saved `{a: 1}` with a rule mapping target key `b` to
original key `a` and target shape `{b: ?}` yields `{b: 1}`, the saved leaf
`a` being fetched with the `RestoreArgs` recorded at `b`; and whenever a
rename rule specifies no original-key pattern and its scan returns restore
args, the matched target key's string form equals the saved key's. -/
theorem c5_rename (tk2 : TupleKey) (t : Transform) (ik : TupleKey)
    (fra : FlatDict RestoreArgs) (items : FlatDict Leaf) (ra : RestoreArgs)
    (hnone : t.original_key = none)
    (hfound : findRenameMatch tk2 t ik fra items = .ok (some ra)) :
    restore oneLeafCkpt false "d" (some [(["b"], Leaf.value 0 none)])
        (some [(["b"], raNp)]) (some [(["b"], renameRule)]) true =
      ⟨.ok [(["b"], Leaf.value 1 none)],
       [Collaborator.governor, Collaborator.aggregateStore, Collaborator.typeHandler],
       ["a"]⟩
    ∧ getRestoreParameters "d" false (some [(["b"], Leaf.value 0 none)])
        [(["a"], Leaf.placeholder "a")] (some [(["b"], renameRule)])
        (some [(["b"], raNp)]) true =
      .ok ([(["a"], .info { name := some "a", path := some "d/a",
                            skip_deserialize := false })], [(["a"], raNp)])
    ∧ (∃ o, o ∈ items.map Prod.fst ∧ keystr o = keystr ik) :=
  ⟨rfl, rfl, findRenameMatch_none_mem tk2 t ik fra ra hnone items hfound⟩

/-- Witness for C5: the rename property applied to a one-rule, one-key
instance with no original-key pattern. -/
theorem c5_rename_witness :
    restore oneLeafCkpt false "d" (some [(["b"], Leaf.value 0 none)])
        (some [(["b"], raNp)]) (some [(["b"], renameRule)]) true =
      ⟨.ok [(["b"], Leaf.value 1 none)],
       [Collaborator.governor, Collaborator.aggregateStore, Collaborator.typeHandler],
       ["a"]⟩
    ∧ getRestoreParameters "d" false (some [(["b"], Leaf.value 0 none)])
        [(["a"], Leaf.placeholder "a")] (some [(["b"], renameRule)])
        (some [(["b"], raNp)]) true =
      .ok ([(["a"], .info { name := some "a", path := some "d/a",
                            skip_deserialize := false })], [(["a"], raNp)])
    ∧ (∃ o, o ∈ ([(["b"], Leaf.value 0 none)] : FlatDict Leaf).map Prod.fst ∧
        keystr o = keystr ["b"]) :=
  c5_rename ["b"] {} ["b"] [(["b"], ({} : RestoreArgs))]
    [(["b"], Leaf.value 0 none)] {} rfl rfl

/-- Claim C6: restore on a nonexistent directory fails with the not-found
error before any collaborator (governor, aggregate store, type handler) is
touched, and supplying transforms without a target item is a configuration
error in `_get_restore_parameters`. -/
theorem c6_not_found_and_config :
    (∀ (aggE : Bool) (aggC inf : FlatDict Leaf) (oc : Bool)
       (fetch : String → Leaf) (uo : Bool) (dir : String)
       (item : Option (FlatDict Leaf)) (ra : Option (FlatDict RestoreArgs))
       (ts : Option (FlatDict Transform)) (tdo : Bool),
       restore ⟨false, aggE, aggC, inf, oc, fetch⟩ uo dir item ra ts tdo =
         ⟨.error ("Requested directory for restore does not exist at " ++ dir), [], []⟩)
    ∧ (∀ (dir : String) (oc : Bool) (structure_ : FlatDict Leaf)
         (ts : FlatDict Transform) (ra : Option (FlatDict RestoreArgs)) (tdo : Bool),
       getRestoreParameters dir oc none structure_ (some ts) ra tdo =
         .error "If providing `transforms`, must provide `item` matching structure of expected result.") :=
  ⟨fun _ _ _ _ _ _ _ _ _ _ _ => rfl, fun _ _ _ _ _ _ => rfl⟩

/-- Claim C7: a leaf with no explicit `SaveArgs` is defaulted so that
`aggregate` is true exactly when no type handler is registered for the
leaf's runtime type. -/
theorem c7_default_aggregate (registry : List String) (item : FlatDict SaveValue)
    (k : TupleKey) (v : SaveValue) (hmem : (k, v) ∈ item) :
    ∃ a, (k, a) ∈ defaultedSaveArgs registry item none ∧
      (a.aggregate = true ↔ hasTypeHandler registry v.tyName = false) := by
  refine ⟨maybeSetDefaultSaveArgs registry v none, ?_, ?_⟩
  · exact List.mem_map.mpr ⟨(k, v), hmem, rfl⟩
  · simp [maybeSetDefaultSaveArgs]

/-- Witness for C7: in a registry knowing only `int`, a leaf of runtime type
`str` defaults to `aggregate = true`. -/
theorem c7_default_aggregate_witness :
    ∃ a, (["a"], a) ∈ defaultedSaveArgs ["int"] [(["a"], { tyName := "str" })] none ∧
      (a.aggregate = true ↔ hasTypeHandler ["int"] (SaveValue.mk "str" false true true none).tyName = false) :=
  c7_default_aggregate ["int"] [(["a"], { tyName := "str" })] ["a"] { tyName := "str" }
    (by decide)

/-- Claim C8: `structure(directory)` returns the aggregate artifact's tree
(placeholders left unresolved) when the artifact exists; when it is missing
it falls back to the structure inferred from on-disk leaf names exactly when
OCDBT is off, and raises otherwise. -/
theorem c8_structure :
    (∀ (uo : Bool) (c inf : FlatDict Leaf) (d : String),
        structureFn true uo c inf d = .ok c)
    ∧ (∀ (c inf : FlatDict Leaf) (d : String),
        structureFn false false c inf d = .ok inf)
    ∧ (∀ (c inf : FlatDict Leaf) (d : String),
        structureFn false true c inf d =
          .error ("Checkpoint structure file does not exist at " ++ d ++ ".")) :=
  ⟨fun _ _ _ _ => rfl, fun _ _ _ => rfl, fun _ _ _ => rfl⟩

/-- Claim C9: building the aggregate tree, an aggregated `jax.Array` that is
not fully replicated raises; an aggregated value of an unsupported
aggregation type (array or not) silently becomes `None`; a non-aggregated
leaf becomes a placeholder carrying the leaf's name. -/
theorem c9_aggregation_leaves :
    (∀ (info : ParamInfo) (dt : Option String) (ty : String) (supp : Bool) (d2 : Option String),
        getLeafForAggregation info ⟨true, dt⟩ ⟨ty, true, false, supp, d2⟩ =
          .error "jax.Array must be fully replicated to be saved in aggregate file.")
    ∧ (∀ (info : ParamInfo) (dt : Option String) (ty : String) (fr : Bool) (d2 : Option String),
        getLeafForAggregation info ⟨true, dt⟩ ⟨ty, false, fr, false, d2⟩ = .ok AggLeaf.noneValue)
    ∧ (∀ (info : ParamInfo) (dt : Option String) (ty : String) (d2 : Option String),
        getLeafForAggregation info ⟨true, dt⟩ ⟨ty, true, true, false, d2⟩ = .ok AggLeaf.noneValue)
    ∧ (∀ (info : ParamInfo) (dt : Option String) (v : SaveValue),
        getLeafForAggregation info ⟨false, dt⟩ v = .ok (AggLeaf.placeholder info.name)) :=
  ⟨fun _ _ _ _ _ => rfl, fun _ _ _ _ _ => rfl, fun _ _ _ _ => rfl, fun _ _ _ => rfl⟩

/-- Claim C10: saving an empty item fails with the `Found empty item` error
before any directory is created or any file is written (the event list is
empty). -/
theorem c10_empty_item (registry : List String) (uo : Bool) (dir fname : String)
    (sa : Option (FlatDict (Option SaveArgs))) :
    asyncSave registry uo dir fname [] sa = ⟨.error "Found empty item", []⟩ :=
  rfl

end Orbax
